import Mathlib

/-!
Verification of the block layer of the sky event store (src/src/block.c)
against its specification.

The C code is shallowly embedded.  Pointers become Option values, the byte
buffer addressed by a cursor becomes a list of byte values, out-parameters
become explicit slots carrying their current contents, and the two scan
loops of the source are embedded with explicit fuel because the source
loops never advance the iterator they test.  Machine arithmetic is Nat/Int
with explicit reductions modulo 18446744073709551616 (2 to the 64) for
size_t values and modulo 4294967296 (2 to the 32) for uint32_t values
where the source computes in those types.

External collaborators that the repository declares but whose definitions
are not under src/ are modelled from the specification (sections 4.1, 4.4
and 6): the htonll and ntohll macros store and load a 64-bit value most
significant byte first; the memwrite and memread macros copy 8 bytes and
advance the cursor; the path iterator, once bound to a block, yields the
packed path records of that block as (object id, byte address) pairs in
storage order, with at_end true exactly when the position has passed the
last record.  The check macro from dbg.h evaluates its condition and jumps
to the error label of the enclosing function when the condition is false,
as every use in block.c shows.
-/

namespace SkyModel

/-- Big-endian serialization of the low k bytes of a natural number, most
significant byte first; this is the byte order produced by the htonll
macro used by sky_block_pack. -/
def natToBeBytes : Nat → Nat → List Nat
  | 0, _ => []
  | k + 1, n => natToBeBytes k (n / 256) ++ [n % 256]

/-- Big-endian deserialization, inverse direction of natToBeBytes; this is
the byte order consumed by the ntohll macro used by sky_block_unpack. -/
def beBytesToNat (bs : List Nat) : Nat :=
  bs.foldl (fun acc b => acc * 256 + b) 0

theorem natToBeBytes_length (k : Nat) : ∀ n : Nat, (natToBeBytes k n).length = k := by
  induction k with
  | zero => intro n; rfl
  | succ k ih => intro n; simp [natToBeBytes, ih]

theorem foldl_natToBeBytes (k : Nat) :
    ∀ n acc : Nat,
      (natToBeBytes k n).foldl (fun a b => a * 256 + b) acc = acc * 256 ^ k + n % 256 ^ k := by
  induction k with
  | zero => intro n acc; simp [natToBeBytes, Nat.mod_one]
  | succ k ih =>
    intro n acc
    rw [natToBeBytes, List.foldl_append, ih]
    simp only [List.foldl_cons, List.foldl_nil]
    have hm : n % 256 ^ (k + 1) = n % 256 + 256 * (n / 256 % 256 ^ k) := by
      rw [pow_succ' 256 k]
      exact Nat.mod_mul
    rw [hm]
    ring

theorem beBytesToNat_natToBeBytes (k n : Nat) :
    beBytesToNat (natToBeBytes k n) = n % 256 ^ k := by
  simpa [beBytesToNat] using foldl_natToBeBytes k n 0

/-- Reads an 8-byte big-endian integer at a byte offset of a buffer; this
is the effect of one memread followed by ntohll. -/
def readBE8 (bytes : List Nat) (off : Nat) : Nat :=
  beBytesToNat ((bytes.drop off).take 8)

/-- Encoding of a 64-bit signed timestamp (sky_timestamp_t) as its 64-bit
two-complement bit pattern, the value htonll operates on. -/
def encodeI64 (t : Int) : Nat :=
  (t % 18446744073709551616).toNat

/-- Decoding of a 64-bit bit pattern back to a signed timestamp. -/
def decodeI64 (n : Nat) : Int :=
  if n < 9223372036854775808 then (n : Int) else (n : Int) - 18446744073709551616

theorem encodeI64_lt (t : Int) : encodeI64 t < 18446744073709551616 := by
  unfold encodeI64
  omega

theorem decodeI64_encodeI64 (t : Int) (h1 : -9223372036854775808 ≤ t)
    (h2 : t < 9223372036854775808) : decodeI64 (encodeI64 t) = t := by
  unfold encodeI64 decodeI64
  split <;> omega

/-- Embedding of struct sky_block: the in-memory block descriptor.  The
index is a uint32_t, the object ids are 64-bit object identifiers, the
timestamps are 64-bit signed sky_timestamp_t values.  The back-reference
to the owning data file is threaded separately (see sky_block_ref) to keep
the mutually recursive C pointer structure well-founded. -/
structure sky_block where
  index : Nat
  min_object_id : Nat
  max_object_id : Nat
  min_timestamp : Int
  max_timestamp : Int
  spanned : Bool
deriving DecidableEq

/-- Default block descriptor, used as the out-of-bounds value of array
reads in the model; the source never reads out of bounds on the executions
covered by the theorems below. -/
def defaultBlock : sky_block :=
  ⟨0, 0, 0, 0, 0, false⟩

/-- Embedding of struct sky_data_file as consumed by block.c: block size
in bytes, number of blocks, the ordered array of block descriptors, and
the base address of the mapped buffer (none when the file is unmapped). -/
structure sky_data_file where
  block_size : Nat
  block_count : Nat
  blocks : List sky_block
  data : Option Nat
deriving DecidableEq

/-- A non-null sky_block pointer target: the descriptor together with its
data_file back-reference (itself a nullable pointer). -/
structure sky_block_ref where
  self : sky_block
  data_file : Option sky_data_file
deriving DecidableEq

/-- The bytes laid out by sky_block_pack: the four header fields as
consecutive 8-byte big-endian integers. -/
def packBytes (x1 x2 x3 x4 : Nat) : List Nat :=
  natToBeBytes 8 x1 ++ natToBeBytes 8 x2 ++ natToBeBytes 8 x3 ++ natToBeBytes 8 x4

/-- Result of sky_block_pack: whether a null pointer was dereferenced, the
C return code, the bytes written at the cursor, and the contents of the
sz out-parameter after the call (none when the caller passed NULL). -/
structure PackOut where
  crashed : Bool
  rc : Int
  written : List Nat
  sz : Option Nat
deriving DecidableEq

/-- Embedding of sky_block_pack (block.c lines 61-90).  The block argument
and the destination cursor are nullable; sz holds the current contents of
the size out-parameter, none when that pointer is NULL.  The source checks
block and ptr, writes the four header fields with htonll + memwrite, and
stores the advanced cursor distance (32) into sz only when sz is non-null;
its error path returns -1 without touching sz. -/
def sky_block_pack (block : Option sky_block) (ptrValid : Bool) (sz : Option Nat) : PackOut :=
  match block with
  | none => { crashed := false, rc := -1, written := [], sz := sz }
  | some b =>
    if ptrValid then
      { crashed := false, rc := 0,
        written := packBytes b.min_object_id b.max_object_id
          (encodeI64 b.min_timestamp) (encodeI64 b.max_timestamp),
        sz := sz.map fun _ => 32 }
    else { crashed := false, rc := -1, written := [], sz := sz }

/-- Result of sky_block_unpack: whether a null pointer was dereferenced,
the C return code, the contents of the block argument after the call, and
the contents of the sz out-parameter after the call. -/
structure UnpackOut where
  crashed : Bool
  rc : Int
  blk : Option sky_block
  sz : Option Nat
deriving DecidableEq

/-- Embedding of sky_block_unpack (block.c lines 99-129).  On the success
path the four header fields are read with memread + ntohll and sz is set
to 32 only when non-null.  On the error path (block or ptr NULL) the
source executes *sz = 0 unconditionally: when sz itself is NULL this is a
null dereference, recorded here as crashed. -/
def sky_block_unpack (block : Option sky_block) (ptr : Option (List Nat))
    (sz : Option Nat) : UnpackOut :=
  match block, ptr with
  | some b, some bytes =>
      { crashed := false, rc := 0,
        blk := some { b with
          min_object_id := readBE8 bytes 0,
          max_object_id := readBE8 bytes 8,
          min_timestamp := decodeI64 (readBE8 bytes 16),
          max_timestamp := decodeI64 (readBE8 bytes 24) },
        sz := sz.map fun _ => 32 }
  | _, _ =>
      match sz with
      | some _ => { crashed := false, rc := -1, blk := block, sz := some 0 }
      | none => { crashed := true, rc := -1, blk := block, sz := none }

theorem take_length_append {α : Type} (A X : List α) (n : Nat) (h : A.length = n) :
    (A ++ X).take n = A := by
  subst h
  exact List.take_left A X

theorem drop_length_append {α : Type} (A X : List α) (n : Nat) (h : A.length = n) :
    (A ++ X).drop n = X := by
  subst h
  exact List.drop_left A X

theorem readBE8_packBytes_0 (x1 x2 x3 x4 : Nat) :
    readBE8 (packBytes x1 x2 x3 x4) 0 = x1 % 18446744073709551616 := by
  unfold readBE8 packBytes
  rw [List.drop_zero,
    show natToBeBytes 8 x1 ++ natToBeBytes 8 x2 ++ natToBeBytes 8 x3 ++ natToBeBytes 8 x4
      = natToBeBytes 8 x1 ++ (natToBeBytes 8 x2 ++ natToBeBytes 8 x3 ++ natToBeBytes 8 x4) by
      simp [List.append_assoc],
    take_length_append (natToBeBytes 8 x1) _ 8 (natToBeBytes_length 8 x1),
    beBytesToNat_natToBeBytes]
  norm_num

theorem readBE8_packBytes_8 (x1 x2 x3 x4 : Nat) :
    readBE8 (packBytes x1 x2 x3 x4) 8 = x2 % 18446744073709551616 := by
  unfold readBE8 packBytes
  rw [show natToBeBytes 8 x1 ++ natToBeBytes 8 x2 ++ natToBeBytes 8 x3 ++ natToBeBytes 8 x4
      = natToBeBytes 8 x1 ++ (natToBeBytes 8 x2 ++ (natToBeBytes 8 x3 ++ natToBeBytes 8 x4)) by
      simp [List.append_assoc],
    drop_length_append (natToBeBytes 8 x1) _ 8 (natToBeBytes_length 8 x1),
    take_length_append (natToBeBytes 8 x2) _ 8 (natToBeBytes_length 8 x2),
    beBytesToNat_natToBeBytes]
  norm_num

theorem readBE8_packBytes_16 (x1 x2 x3 x4 : Nat) :
    readBE8 (packBytes x1 x2 x3 x4) 16 = x3 % 18446744073709551616 := by
  unfold readBE8 packBytes
  rw [show natToBeBytes 8 x1 ++ natToBeBytes 8 x2 ++ natToBeBytes 8 x3 ++ natToBeBytes 8 x4
      = (natToBeBytes 8 x1 ++ natToBeBytes 8 x2) ++ (natToBeBytes 8 x3 ++ natToBeBytes 8 x4) by
      simp [List.append_assoc],
    drop_length_append (natToBeBytes 8 x1 ++ natToBeBytes 8 x2) _ 16 (by
      simp [natToBeBytes_length]),
    take_length_append (natToBeBytes 8 x3) _ 8 (natToBeBytes_length 8 x3),
    beBytesToNat_natToBeBytes]
  norm_num

theorem readBE8_packBytes_24 (x1 x2 x3 x4 : Nat) :
    readBE8 (packBytes x1 x2 x3 x4) 24 = x4 % 18446744073709551616 := by
  unfold readBE8 packBytes
  rw [drop_length_append (natToBeBytes 8 x1 ++ natToBeBytes 8 x2 ++ natToBeBytes 8 x3) _ 24 (by
      simp [natToBeBytes_length])]
  have h8 : (natToBeBytes 8 x4).take 8 = natToBeBytes 8 x4 := by
    apply List.take_of_length_le
    rw [natToBeBytes_length]
  rw [h8, beBytesToNat_natToBeBytes]
  norm_num

/-- C3: for every block header value (any 64-bit min and max object id and
any 64-bit signed min and max timestamp), unpacking the 32 bytes produced
by packing yields exactly the same four field values back:
sky_block_unpack inverts sky_block_pack on all four fields. -/
theorem sky_block_pack_unpack_roundtrip (b b0 : sky_block)
    (h1 : b.min_object_id < 18446744073709551616)
    (h2 : b.max_object_id < 18446744073709551616)
    (h3 : -9223372036854775808 ≤ b.min_timestamp)
    (h4 : b.min_timestamp < 9223372036854775808)
    (h5 : -9223372036854775808 ≤ b.max_timestamp)
    (h6 : b.max_timestamp < 9223372036854775808) :
    (sky_block_unpack (some b0)
        (some (sky_block_pack (some b) true (some 0)).written) (some 0)).blk =
      some { b0 with
        min_object_id := b.min_object_id, max_object_id := b.max_object_id,
        min_timestamp := b.min_timestamp, max_timestamp := b.max_timestamp } := by
  have hw : (sky_block_pack (some b) true (some 0)).written =
      packBytes b.min_object_id b.max_object_id
        (encodeI64 b.min_timestamp) (encodeI64 b.max_timestamp) := rfl
  rw [hw]
  have hblk : (sky_block_unpack (some b0)
      (some (packBytes b.min_object_id b.max_object_id
        (encodeI64 b.min_timestamp) (encodeI64 b.max_timestamp))) (some 0)).blk =
      some { b0 with
        min_object_id := readBE8 (packBytes b.min_object_id b.max_object_id
          (encodeI64 b.min_timestamp) (encodeI64 b.max_timestamp)) 0,
        max_object_id := readBE8 (packBytes b.min_object_id b.max_object_id
          (encodeI64 b.min_timestamp) (encodeI64 b.max_timestamp)) 8,
        min_timestamp := decodeI64 (readBE8 (packBytes b.min_object_id b.max_object_id
          (encodeI64 b.min_timestamp) (encodeI64 b.max_timestamp)) 16),
        max_timestamp := decodeI64 (readBE8 (packBytes b.min_object_id b.max_object_id
          (encodeI64 b.min_timestamp) (encodeI64 b.max_timestamp)) 24) } := rfl
  rw [hblk, readBE8_packBytes_0, readBE8_packBytes_8, readBE8_packBytes_16, readBE8_packBytes_24,
    Nat.mod_eq_of_lt h1, Nat.mod_eq_of_lt h2,
    Nat.mod_eq_of_lt (encodeI64_lt b.min_timestamp),
    Nat.mod_eq_of_lt (encodeI64_lt b.max_timestamp),
    decodeI64_encodeI64 b.min_timestamp h3 h4,
    decodeI64_encodeI64 b.max_timestamp h5 h6]

/-- Witness for the round-trip theorem at a concrete header value. -/
theorem sky_block_pack_unpack_roundtrip_witness :
    (sky_block_unpack (some ⟨0, 0, 0, 0, 0, false⟩)
        (some (sky_block_pack (some ⟨3, 10, 20, -5, 99, true⟩) true (some 0)).written)
        (some 0)).blk =
      some ⟨0, 10, 20, -5, 99, false⟩ := by
  have h := sky_block_pack_unpack_roundtrip ⟨3, 10, 20, -5, 99, true⟩ ⟨0, 0, 0, 0, 0, false⟩
    (by norm_num) (by norm_num) (by norm_num) (by norm_num) (by norm_num) (by norm_num)
  exact h

/-- C4: for every non-null block and non-null cursor, sky_block_pack
writes min_object_id, max_object_id, min_timestamp, max_timestamp as four
8-byte big-endian integers in exactly that order at the cursor (each field
recoverable from its fixed offset 0, 8, 16, 24), reports exactly 32 bytes
written, and succeeds; with an absent block or an absent cursor it returns
-1 without writing any byte. -/
theorem sky_block_pack_layout :
    (∀ (b : sky_block) (s0 : Nat),
      sky_block_pack (some b) true (some s0) =
        { crashed := false, rc := 0,
          written := packBytes b.min_object_id b.max_object_id
            (encodeI64 b.min_timestamp) (encodeI64 b.max_timestamp),
          sz := some 32 } ∧
      (sky_block_pack (some b) true (some s0)).written.length = 32 ∧
      readBE8 (sky_block_pack (some b) true (some s0)).written 0 =
        b.min_object_id % 18446744073709551616 ∧
      readBE8 (sky_block_pack (some b) true (some s0)).written 8 =
        b.max_object_id % 18446744073709551616 ∧
      readBE8 (sky_block_pack (some b) true (some s0)).written 16 =
        encodeI64 b.min_timestamp ∧
      readBE8 (sky_block_pack (some b) true (some s0)).written 24 =
        encodeI64 b.max_timestamp) ∧
    (∀ (ptrValid : Bool) (sz0 : Option Nat),
      sky_block_pack none ptrValid sz0 =
        { crashed := false, rc := -1, written := [], sz := sz0 }) ∧
    (∀ (b : sky_block) (sz0 : Option Nat),
      sky_block_pack (some b) false sz0 =
        { crashed := false, rc := -1, written := [], sz := sz0 }) := by
  refine ⟨fun b s0 => ?_, fun ptrValid sz0 => rfl, fun b sz0 => rfl⟩
  have hw : (sky_block_pack (some b) true (some s0)).written =
      packBytes b.min_object_id b.max_object_id
        (encodeI64 b.min_timestamp) (encodeI64 b.max_timestamp) := rfl
  refine ⟨rfl, ?_, ?_, ?_, ?_, ?_⟩
  · rw [hw]; unfold packBytes; simp [natToBeBytes_length]
  · rw [hw, readBE8_packBytes_0]
  · rw [hw, readBE8_packBytes_8]
  · rw [hw, readBE8_packBytes_16, Nat.mod_eq_of_lt (encodeI64_lt b.min_timestamp)]
  · rw [hw, readBE8_packBytes_24, Nat.mod_eq_of_lt (encodeI64_lt b.max_timestamp)]

/-- C9: sky_block_unpack fails exactly when the block or the cursor is
absent.  For every non-null block and any readable bytes it succeeds,
decoding whatever values the bytes hold, and it performs no validation of
the header invariants: a decoded header with min_object_id greater than
max_object_id and min_timestamp greater than max_timestamp is accepted
with return code 0. -/
theorem sky_block_unpack_no_validation :
    (∀ (b : sky_block) (bytes : List Nat) (s0 : Nat),
      sky_block_unpack (some b) (some bytes) (some s0) =
        { crashed := false, rc := 0,
          blk := some { b with
            min_object_id := readBE8 bytes 0,
            max_object_id := readBE8 bytes 8,
            min_timestamp := decodeI64 (readBE8 bytes 16),
            max_timestamp := decodeI64 (readBE8 bytes 24) },
          sz := some 32 }) ∧
    (∀ (ptr : Option (List Nat)) (s0 : Nat),
      (sky_block_unpack none ptr (some s0)).rc = -1) ∧
    (∀ (b : sky_block) (s0 : Nat),
      (sky_block_unpack (some b) none (some s0)).rc = -1) ∧
    (∃ (b b2 : sky_block) (bytes : List Nat),
      (sky_block_unpack (some b) (some bytes) (some 0)).rc = 0 ∧
      (sky_block_unpack (some b) (some bytes) (some 0)).blk = some b2 ∧
      b2.max_object_id < b2.min_object_id ∧ b2.max_timestamp < b2.min_timestamp) := by
  refine ⟨fun b bytes s0 => rfl, fun ptr s0 => ?_, fun b s0 => rfl, ?_⟩
  · cases ptr <;> rfl
  · refine ⟨defaultBlock, ⟨0, 5, 3, 9, 2, false⟩,
      packBytes 5 3 (encodeI64 9) (encodeI64 2), rfl, ?_, by norm_num, by norm_num⟩
    decide

/-- Outcome of one embedded call: crash records a null pointer
dereference (undefined behaviour in the source), diverge records that the
call never returns, ret carries the C return code together with the
visible memory after the call. -/
inductive RunOutcome (α : Type) where
  | crash : RunOutcome α
  | diverge : RunOutcome α
  | ret : α → RunOutcome α
deriving DecidableEq

/-- The memory visible to one call of a block query: the (nullable) block
argument with its reachable structures, and the caller-supplied output
slots, each nullable and carrying its current contents. -/
structure Mem where
  block : Option sky_block_ref
  out_offset : Option Nat
  out_ptr : Option (Option Nat)
  out_count : Option Nat
  out_path : Option (Option Nat)
deriving DecidableEq

/-- Error label of sky_block_get_offset: the source stores 0 through the
offset pointer and returns -1; when the offset pointer is NULL that store
is a null dereference. -/
def offsetErrorPath (m : Mem) : RunOutcome (Int × Mem) :=
  match m.out_offset with
  | none => .crash
  | some _ => .ret (-1, { m with out_offset := some 0 })

/-- Embedding of sky_block_get_offset (block.c lines 143-155): checks
block, data_file and a nonzero block_size, then stores
block_size * block.index (size_t arithmetic) through the offset pointer
and returns 0. -/
def sky_block_get_offset (m : Mem) : RunOutcome (Int × Mem) :=
  match m.block with
  | none => offsetErrorPath m
  | some br =>
    match br.data_file with
    | none => offsetErrorPath m
    | some f =>
      if f.block_size = 0 then offsetErrorPath m
      else
        match m.out_offset with
        | none => .crash
        | some _ =>
          .ret (0, { m with
            out_offset := some ((f.block_size * br.self.index) % 18446744073709551616) })

theorem sky_block_get_offset_success (m : Mem) (br : sky_block_ref) (f : sky_data_file)
    (v : Nat) (hb : m.block = some br) (hdf : br.data_file = some f)
    (hv : m.out_offset = some v) (hbs : f.block_size ≠ 0)
    (hlt : f.block_size * br.self.index < 18446744073709551616) :
    sky_block_get_offset m =
      .ret (0, { m with out_offset := some (f.block_size * br.self.index) }) := by
  simp only [sky_block_get_offset, hb, hdf, hv]
  rw [if_neg hbs, Nat.mod_eq_of_lt hlt]

/-- C8: for every block whose data file is present and has a nonzero
block_size, sky_block_get_offset succeeds and stores exactly
block_size * block.index through the offset pointer (within size_t
range), so offsets are strictly increasing in the block index for blocks
of the same file; when the data file is absent or block_size is zero it
takes the error path and returns -1. -/
theorem sky_block_get_offset_correct :
    (∀ (m : Mem) (br : sky_block_ref) (f : sky_data_file) (v : Nat),
      m.block = some br → br.data_file = some f → m.out_offset = some v →
      f.block_size ≠ 0 → f.block_size * br.self.index < 18446744073709551616 →
      sky_block_get_offset m =
        .ret (0, { m with out_offset := some (f.block_size * br.self.index) })) ∧
    (∀ (m : Mem) (br : sky_block_ref) (f : sky_data_file) (v : Nat),
      m.block = some br → br.data_file = some f → m.out_offset = some v →
      f.block_size = 0 →
      sky_block_get_offset m = .ret (-1, { m with out_offset := some 0 })) ∧
    (∀ (m : Mem) (br : sky_block_ref) (v : Nat),
      m.block = some br → br.data_file = none → m.out_offset = some v →
      sky_block_get_offset m = .ret (-1, { m with out_offset := some 0 })) ∧
    (∀ (m m2 : Mem) (br br2 : sky_block_ref) (f : sky_data_file) (v v2 : Nat),
      m.block = some br → m2.block = some br2 →
      br.data_file = some f → br2.data_file = some f →
      m.out_offset = some v → m2.out_offset = some v2 →
      f.block_size ≠ 0 → br.self.index < br2.self.index →
      f.block_size * br2.self.index < 18446744073709551616 →
      sky_block_get_offset m =
        .ret (0, { m with out_offset := some (f.block_size * br.self.index) }) ∧
      sky_block_get_offset m2 =
        .ret (0, { m2 with out_offset := some (f.block_size * br2.self.index) }) ∧
      f.block_size * br.self.index < f.block_size * br2.self.index) := by
  refine ⟨sky_block_get_offset_success, ?_, ?_, ?_⟩
  · intro m br f v hb hdf hv hbs
    simp only [sky_block_get_offset, hb, hdf, hv]
    rw [if_pos hbs]
    simp [offsetErrorPath, hv, hb]
  · intro m br v hb hdf hv
    simp only [sky_block_get_offset, hb, hdf]
    simp [offsetErrorPath, hv, hb]
  · intro m m2 br br2 f v v2 hb hb2 hdf hdf2 hv hv2 hbs hij hlt2
    have hmono : f.block_size * br.self.index < f.block_size * br2.self.index :=
      mul_lt_mul_of_pos_left hij (Nat.pos_of_ne_zero hbs)
    exact ⟨sky_block_get_offset_success m br f v hb hdf hv hbs (lt_trans hmono hlt2),
      sky_block_get_offset_success m2 br2 f v2 hb2 hdf2 hv2 hbs hlt2, hmono⟩

/-- Witness for the offset theorem: block_size 4, index 3, offset 12. -/
theorem sky_block_get_offset_correct_witness :
    sky_block_get_offset
        ⟨some ⟨⟨3, 1, 1, 0, 0, false⟩, some ⟨4, 2, [], some 0⟩⟩, some 99, none, none, none⟩ =
      .ret (0,
        ⟨some ⟨⟨3, 1, 1, 0, 0, false⟩, some ⟨4, 2, [], some 0⟩⟩, some 12, none, none, none⟩) := by
  have h := sky_block_get_offset_correct.1
    ⟨some ⟨⟨3, 1, 1, 0, 0, false⟩, some ⟨4, 2, [], some 0⟩⟩, some 99, none, none, none⟩
    ⟨⟨3, 1, 1, 0, 0, false⟩, some ⟨4, 2, [], some 0⟩⟩ ⟨4, 2, [], some 0⟩ 99
    rfl rfl rfl (by norm_num) (by norm_num)
  simpa using h

/-- The forward scan loop of sky_block_get_span_count (block.c lines
215-224): the index is incremented, then the loop stops as soon as the
index passes block_count - 1 (computed here in uint32_t arithmetic by the
caller and passed as bc1) or the block at the index no longer has the
starting object id; the function returns the stopping index. -/
def spanLoop (blocks : List sky_block) (bc1 object_id index : Nat) : Nat :=
  if h : bc1 < index + 1 ∨ object_id ≠ (blocks.getD (index + 1) defaultBlock).min_object_id then
    index + 1
  else
    spanLoop blocks bc1 object_id (index + 1)
termination_by bc1 + 1 - index
decreasing_by
  push_neg at h
  obtain ⟨h1, _h2⟩ := h
  omega

/-- Error label of sky_block_get_span_count: the source stores 0 through
the count pointer and returns -1; when the count pointer is NULL (which is
itself one of the checked conditions) that store is a null dereference. -/
def countErrorPath (m : Mem) : RunOutcome (Int × Mem) :=
  match m.out_count with
  | none => .crash
  | some _ => .ret (-1, { m with out_count := some 0 })

/-- Embedding of sky_block_get_span_count (block.c lines 197-235): checks
block, data_file and count; a non-spanned block reports count 1 with no
scan; a spanned block scans forward with spanLoop from block.index, with
the bound block_count - 1 computed in uint32_t arithmetic, and reports
end_index - start_index as a uint32_t. -/
def sky_block_get_span_count (m : Mem) : RunOutcome (Int × Mem) :=
  match m.block with
  | none => countErrorPath m
  | some br =>
    match br.data_file with
    | none => countErrorPath m
    | some f =>
      match m.out_count with
      | none => countErrorPath m
      | some _ =>
        if br.self.spanned then
          .ret (0, { m with
            out_count := some ((spanLoop f.blocks ((f.block_count + 4294967295) % 4294967296)
              br.self.min_object_id br.self.index - br.self.index) % 4294967296) })
        else
          .ret (0, { m with out_count := some 1 })

theorem spanLoop_run (blocks : List sky_block) (bc1 X : Nat) :
    ∀ (N i : Nat), 1 ≤ N →
      (∀ k, 1 ≤ k → k < N →
        i + k ≤ bc1 ∧ (blocks.getD (i + k) defaultBlock).min_object_id = X) →
      (bc1 < i + N ∨ X ≠ (blocks.getD (i + N) defaultBlock).min_object_id) →
      spanLoop blocks bc1 X i = i + N := by
  intro N
  induction N with
  | zero => intro i h hmid hend; omega
  | succ N ih =>
    intro i _ hmid hend
    unfold spanLoop
    by_cases hN : N = 0
    · subst hN
      have hc : bc1 < i + 1 ∨ X ≠ (blocks.getD (i + 1) defaultBlock).min_object_id := by
        rcases hend with h | h
        · exact Or.inl (by omega)
        · refine Or.inr ?_
          have he : i + (0 + 1) = i + 1 := by omega
          rw [he] at h
          exact h
      rw [dif_pos hc]
    · have hcneg : ¬(bc1 < i + 1 ∨ X ≠ (blocks.getD (i + 1) defaultBlock).min_object_id) := by
        have h1 := hmid 1 (by omega) (by omega)
        push_neg
        exact ⟨by omega, h1.2.symm⟩
      rw [dif_neg hcneg]
      have hrec : spanLoop blocks bc1 X (i + 1) = i + 1 + N := by
        apply ih (i + 1) (by omega)
        · intro k hk1 hk2
          have hm := hmid (k + 1) (by omega) (by omega)
          refine ⟨by omega, ?_⟩
          have he : i + 1 + k = i + (k + 1) := by omega
          rw [he]
          exact hm.2
        · rcases hend with h | h
          · exact Or.inl (by omega)
          · refine Or.inr ?_
            have he : i + 1 + N = i + (N + 1) := by omega
            rw [he]
            exact h
      rw [hrec]
      omega

/-- C2: for every block that is the first block of its span: if
block.spanned is false, sky_block_get_span_count reports count 1 through
the non-scanning branch; if block.spanned is true and the file contains a
run of N consecutive blocks starting at block.index all sharing
block.min_object_id, followed by end-of-array or a block with a different
min_object_id, it reports count N (end_index - start_index). -/
theorem sky_block_get_span_count_correct :
    ∀ (m : Mem) (br : sky_block_ref) (f : sky_data_file) (v : Nat),
      m.block = some br → br.data_file = some f → m.out_count = some v →
      ((br.self.spanned = false →
        sky_block_get_span_count m = .ret (0, { m with out_count := some 1 })) ∧
       (∀ N : Nat, br.self.spanned = true →
        f.block_count = f.blocks.length →
        f.blocks.length < 4294967296 →
        1 ≤ N →
        br.self.index + N ≤ f.blocks.length →
        (∀ k, k < N → (f.blocks.getD (br.self.index + k) defaultBlock).min_object_id
          = br.self.min_object_id) →
        (br.self.index + N = f.blocks.length ∨
          (f.blocks.getD (br.self.index + N) defaultBlock).min_object_id
            ≠ br.self.min_object_id) →
        sky_block_get_span_count m = .ret (0, { m with out_count := some N }))) := by
  intro m br f v hb hdf hv
  constructor
  · intro hsp
    simp [sky_block_get_span_count, hb, hdf, hv, hsp]
  · intro N hsp hbc hlen hN hbound hrun hend
    have hlen1 : 1 ≤ f.blocks.length := by omega
    have hb1 : (f.block_count + 4294967295) % 4294967296 = f.blocks.length - 1 := by omega
    have hloop : spanLoop f.blocks (f.blocks.length - 1) br.self.min_object_id br.self.index
        = br.self.index + N := by
      apply spanLoop_run f.blocks (f.blocks.length - 1) br.self.min_object_id N br.self.index hN
      · intro k hk1 hk2
        exact ⟨by omega, hrun k (by omega)⟩
      · rcases hend with h | h
        · exact Or.inl (by omega)
        · exact Or.inr (fun hx => h hx.symm)
    simp only [sky_block_get_span_count, hb, hdf, hv, hsp, if_true]
    rw [hb1, hloop]
    have hsub : br.self.index + N - br.self.index = N := by omega
    rw [hsub, Nat.mod_eq_of_lt (by omega)]

/-- Witness for the span count theorem: three blocks with object ids
7, 7, 9; the spanned first block reports count 2, and a non-spanned block
reports count 1. -/
theorem sky_block_get_span_count_correct_witness :
    sky_block_get_span_count
        ⟨some ⟨⟨0, 7, 7, 0, 0, true⟩,
          some ⟨32, 3, [⟨0, 7, 7, 0, 0, true⟩, ⟨1, 7, 7, 0, 0, true⟩, ⟨2, 9, 9, 0, 0, false⟩],
            some 0⟩⟩, none, none, some 55, none⟩ =
      .ret (0, ⟨some ⟨⟨0, 7, 7, 0, 0, true⟩,
          some ⟨32, 3, [⟨0, 7, 7, 0, 0, true⟩, ⟨1, 7, 7, 0, 0, true⟩, ⟨2, 9, 9, 0, 0, false⟩],
            some 0⟩⟩, none, none, some 2, none⟩) ∧
    sky_block_get_span_count
        ⟨some ⟨⟨2, 9, 9, 0, 0, false⟩,
          some ⟨32, 3, [⟨0, 7, 7, 0, 0, true⟩, ⟨1, 7, 7, 0, 0, true⟩, ⟨2, 9, 9, 0, 0, false⟩],
            some 0⟩⟩, none, none, some 55, none⟩ =
      .ret (0, ⟨some ⟨⟨2, 9, 9, 0, 0, false⟩,
          some ⟨32, 3, [⟨0, 7, 7, 0, 0, true⟩, ⟨1, 7, 7, 0, 0, true⟩, ⟨2, 9, 9, 0, 0, false⟩],
            some 0⟩⟩, none, none, some 1, none⟩) := by
  constructor
  · have h := (sky_block_get_span_count_correct
      ⟨some ⟨⟨0, 7, 7, 0, 0, true⟩,
        some ⟨32, 3, [⟨0, 7, 7, 0, 0, true⟩, ⟨1, 7, 7, 0, 0, true⟩, ⟨2, 9, 9, 0, 0, false⟩],
          some 0⟩⟩, none, none, some 55, none⟩
      ⟨⟨0, 7, 7, 0, 0, true⟩,
        some ⟨32, 3, [⟨0, 7, 7, 0, 0, true⟩, ⟨1, 7, 7, 0, 0, true⟩, ⟨2, 9, 9, 0, 0, false⟩],
          some 0⟩⟩
      ⟨32, 3, [⟨0, 7, 7, 0, 0, true⟩, ⟨1, 7, 7, 0, 0, true⟩, ⟨2, 9, 9, 0, 0, false⟩], some 0⟩
      55 rfl rfl rfl).2 2 rfl rfl (by norm_num) (by norm_num) (by norm_num)
      (by decide) (by decide)
    exact h
  · have h := (sky_block_get_span_count_correct
      ⟨some ⟨⟨2, 9, 9, 0, 0, false⟩,
        some ⟨32, 3, [⟨0, 7, 7, 0, 0, true⟩, ⟨1, 7, 7, 0, 0, true⟩, ⟨2, 9, 9, 0, 0, false⟩],
          some 0⟩⟩, none, none, some 55, none⟩
      ⟨⟨2, 9, 9, 0, 0, false⟩,
        some ⟨32, 3, [⟨0, 7, 7, 0, 0, true⟩, ⟨1, 7, 7, 0, 0, true⟩, ⟨2, 9, 9, 0, 0, false⟩],
          some 0⟩⟩
      ⟨32, 3, [⟨0, 7, 7, 0, 0, true⟩, ⟨1, 7, 7, 0, 0, true⟩, ⟨2, 9, 9, 0, 0, false⟩], some 0⟩
      55 rfl rfl rfl).1 rfl
    exact h

/-- Error label of sky_block_get_ptr: the source stores NULL through the
ptr out-parameter and returns -1; a NULL out-parameter makes that store a
null dereference. -/
def ptrErrorPath (m : Mem) : RunOutcome (Int × Mem) :=
  match m.out_ptr with
  | none => .crash
  | some _ => .ret (-1, { m with out_ptr := some none })

/-- Embedding of sky_block_get_ptr (block.c lines 164-183): checks block,
data_file and a mapped data pointer, calls sky_block_get_offset with a
local stack slot (always valid, discarded afterwards), checks its return
code, and stores data + offset through the ptr out-parameter. -/
def sky_block_get_ptr (m : Mem) : RunOutcome (Int × Mem) :=
  match m.block with
  | none => ptrErrorPath m
  | some br =>
    match br.data_file with
    | none => ptrErrorPath m
    | some f =>
      match f.data with
      | none => ptrErrorPath m
      | some base =>
        match sky_block_get_offset { m with out_offset := some 0 } with
        | .crash => .crash
        | .diverge => .diverge
        | .ret rcm =>
          if rcm.1 = 0 then
            match ({ rcm.2 with out_offset := m.out_offset } : Mem).out_ptr with
            | none => .crash
            | some _ =>
              .ret (0,
                { rcm.2 with
                  out_offset := m.out_offset
                  out_ptr :=
                    some (some ((base + rcm.2.out_offset.getD 0) % 18446744073709551616)) })
          else ptrErrorPath { rcm.2 with out_offset := m.out_offset }

/-- Error label of sky_block_get_path_ptr: the source releases the
iterator, stores NULL through the ret out-parameter and returns -1; a NULL
out-parameter makes that store a null dereference. -/
def pathErrorPath (m : Mem) : RunOutcome (Int × Mem) :=
  match m.out_path with
  | none => .crash
  | some _ => .ret (-1, { m with out_path := some none })

/-- The scan loop shared by sky_block_get_path_ptr (block.c lines 317-324)
and sky_block_split_with_event (block.c lines 270-277), with the path
iterator modelled from the specification as the list of (object id, byte
address) records of the block and a position that starts at the first
record.  The loop tests iterator eof, compares the target object id with
the current object id and on a match retrieves the current pointer and
breaks; crucially, the loop body of the source contains no call that
advances the iterator, so the position never changes; fuel bounds the
number of iterations observed and running out of fuel marks divergence. -/
def pathLoop (records : List (Nat × Nat)) (pos object_id : Nat) : Nat → RunOutcome (Option Nat)
  | 0 => .diverge
  | fuel + 1 =>
    if records.length ≤ pos then .ret none
    else if object_id = (records.getD pos (0, 0)).1 then .ret (some (records.getD pos (0, 0)).2)
    else pathLoop records pos object_id fuel

theorem pathLoop_no_advance (records : List (Nat × Nat)) (pos object_id : Nat)
    (hlen : pos < records.length) (hne : object_id ≠ (records.getD pos (0, 0)).1) :
    ∀ fuel, pathLoop records pos object_id fuel = .diverge := by
  intro fuel
  induction fuel with
  | zero => rfl
  | succ n ih =>
    show (if records.length ≤ pos then RunOutcome.ret none
      else if object_id = (records.getD pos (0, 0)).1
        then RunOutcome.ret (some (records.getD pos (0, 0)).2)
      else pathLoop records pos object_id n) = RunOutcome.diverge
    rw [if_neg (by omega), if_neg hne]
    exact ih

/-- Embedding of sky_block_get_path_ptr (block.c lines 301-334): checks
block and a positive object id, binds a path iterator to the block
(modelled from the specification: binding yields the block's records with
the position at the first record), stores NULL through the ret
out-parameter, then runs the scan loop; a match stores the matched record
address through ret. -/
def sky_block_get_path_ptr (m : Mem) (object_id : Nat) (records : List (Nat × Nat))
    (fuel : Nat) : RunOutcome (Int × Mem) :=
  match m.block with
  | none => pathErrorPath m
  | some _ =>
    if object_id = 0 then pathErrorPath m
    else
      match m.out_path with
      | none => .crash
      | some _ =>
        match pathLoop records 0 object_id fuel with
        | .crash => .crash
        | .diverge => .diverge
        | .ret none => .ret (0, { m with out_path := some none })
        | .ret (some p) => .ret (0, { m with out_path := some (some p) })

theorem offsetErrorPath_frame (m : Mem) (rc : Int) (m2 : Mem)
    (h : offsetErrorPath m = .ret (rc, m2)) : m2.block = m.block := by
  unfold offsetErrorPath at h
  cases ho : m.out_offset with
  | none =>
    rw [ho] at h
    exact RunOutcome.noConfusion h
  | some w =>
    rw [ho] at h
    simp only [RunOutcome.ret.injEq, Prod.mk.injEq] at h
    rw [← h.2]

theorem countErrorPath_frame (m : Mem) (rc : Int) (m2 : Mem)
    (h : countErrorPath m = .ret (rc, m2)) : m2.block = m.block := by
  unfold countErrorPath at h
  cases ho : m.out_count with
  | none =>
    rw [ho] at h
    exact RunOutcome.noConfusion h
  | some w =>
    rw [ho] at h
    simp only [RunOutcome.ret.injEq, Prod.mk.injEq] at h
    rw [← h.2]

theorem ptrErrorPath_frame (m : Mem) (rc : Int) (m2 : Mem)
    (h : ptrErrorPath m = .ret (rc, m2)) : m2.block = m.block := by
  unfold ptrErrorPath at h
  cases ho : m.out_ptr with
  | none =>
    rw [ho] at h
    exact RunOutcome.noConfusion h
  | some w =>
    rw [ho] at h
    simp only [RunOutcome.ret.injEq, Prod.mk.injEq] at h
    rw [← h.2]

theorem pathErrorPath_frame (m : Mem) (rc : Int) (m2 : Mem)
    (h : pathErrorPath m = .ret (rc, m2)) : m2.block = m.block := by
  unfold pathErrorPath at h
  cases ho : m.out_path with
  | none =>
    rw [ho] at h
    exact RunOutcome.noConfusion h
  | some w =>
    rw [ho] at h
    simp only [RunOutcome.ret.injEq, Prod.mk.injEq] at h
    rw [← h.2]

theorem sky_block_get_offset_frame (m : Mem) (rc : Int) (m2 : Mem)
    (h : sky_block_get_offset m = .ret (rc, m2)) : m2.block = m.block := by
  unfold sky_block_get_offset at h
  cases hb : m.block with
  | none =>
    simp only [hb] at h
    exact (offsetErrorPath_frame m rc m2 h).trans hb
  | some br =>
    simp only [hb] at h
    cases hdf : br.data_file with
    | none =>
      simp only [hdf] at h
      exact (offsetErrorPath_frame m rc m2 h).trans hb
    | some f =>
      simp only [hdf] at h
      by_cases hbs : f.block_size = 0
      · rw [if_pos hbs] at h
        exact (offsetErrorPath_frame m rc m2 h).trans hb
      · rw [if_neg hbs] at h
        cases ho : m.out_offset with
        | none =>
          rw [ho] at h
          exact RunOutcome.noConfusion h
        | some w =>
          simp only [ho, RunOutcome.ret.injEq, Prod.mk.injEq] at h
          rw [← h.2]

theorem sky_block_get_ptr_frame (m : Mem) (rc : Int) (m2 : Mem)
    (h : sky_block_get_ptr m = .ret (rc, m2)) : m2.block = m.block := by
  unfold sky_block_get_ptr at h
  cases hb : m.block with
  | none =>
    simp only [hb] at h
    exact (ptrErrorPath_frame m rc m2 h).trans hb
  | some br =>
    simp only [hb] at h
    cases hdf : br.data_file with
    | none =>
      simp only [hdf] at h
      exact (ptrErrorPath_frame m rc m2 h).trans hb
    | some f =>
      simp only [hdf] at h
      cases hdata : f.data with
      | none =>
        simp only [hdata] at h
        exact (ptrErrorPath_frame m rc m2 h).trans hb
      | some base =>
        simp only [hdata] at h
        cases hio : sky_block_get_offset { m with block := some br, out_offset := some 0 } with
        | crash =>
          simp only [hio] at h
          exact RunOutcome.noConfusion h
        | diverge =>
          simp only [hio] at h
          exact RunOutcome.noConfusion h
        | ret p =>
          simp only [hio] at h
          have hm1 : p.2.block = some br :=
            sky_block_get_offset_frame { m with block := some br, out_offset := some 0 }
              p.1 p.2 hio
          by_cases hrc : p.1 = 0
          · rw [if_pos hrc] at h
            cases hop : p.2.out_ptr with
            | none =>
              simp only [hop] at h
              exact RunOutcome.noConfusion h
            | some w =>
              simp only [hop, RunOutcome.ret.injEq, Prod.mk.injEq] at h
              rw [← h.2]
              exact hm1
          · rw [if_neg hrc] at h
            exact (ptrErrorPath_frame { p.2 with out_offset := m.out_offset } rc m2 h).trans hm1

theorem sky_block_get_span_count_frame (m : Mem) (rc : Int) (m2 : Mem)
    (h : sky_block_get_span_count m = .ret (rc, m2)) : m2.block = m.block := by
  unfold sky_block_get_span_count at h
  cases hb : m.block with
  | none =>
    simp only [hb] at h
    exact (countErrorPath_frame m rc m2 h).trans hb
  | some br =>
    simp only [hb] at h
    cases hdf : br.data_file with
    | none =>
      simp only [hdf] at h
      exact (countErrorPath_frame m rc m2 h).trans hb
    | some f =>
      simp only [hdf] at h
      cases ho : m.out_count with
      | none =>
        simp only [ho] at h
        exact (countErrorPath_frame m rc m2 h).trans hb
      | some w =>
        simp only [ho] at h
        by_cases hsp : br.self.spanned
        · rw [if_pos hsp] at h
          simp only [RunOutcome.ret.injEq, Prod.mk.injEq] at h
          rw [← h.2]
        · rw [if_neg hsp] at h
          simp only [RunOutcome.ret.injEq, Prod.mk.injEq] at h
          rw [← h.2]

theorem sky_block_get_path_ptr_frame (m : Mem) (rc : Int) (m2 : Mem)
    (object_id : Nat) (records : List (Nat × Nat)) (fuel : Nat)
    (h : sky_block_get_path_ptr m object_id records fuel = .ret (rc, m2)) :
    m2.block = m.block := by
  unfold sky_block_get_path_ptr at h
  cases hb : m.block with
  | none =>
    simp only [hb] at h
    exact (pathErrorPath_frame m rc m2 h).trans hb
  | some br =>
    simp only [hb] at h
    by_cases hoid : object_id = 0
    · rw [if_pos hoid] at h
      exact (pathErrorPath_frame m rc m2 h).trans hb
    · rw [if_neg hoid] at h
      cases hop : m.out_path with
      | none =>
        simp only [hop] at h
        exact RunOutcome.noConfusion h
      | some w =>
        simp only [hop] at h
        cases hpl : pathLoop records 0 object_id fuel with
        | crash =>
          simp only [hpl] at h
          exact RunOutcome.noConfusion h
        | diverge =>
          simp only [hpl] at h
          exact RunOutcome.noConfusion h
        | ret r =>
          cases r with
          | none =>
            simp only [hpl, RunOutcome.ret.injEq, Prod.mk.injEq] at h
            rw [← h.2]
          | some p =>
            simp only [hpl, RunOutcome.ret.injEq, Prod.mk.injEq] at h
            rw [← h.2]

/-- C10: the query operations sky_block_get_offset, sky_block_get_ptr,
sky_block_get_span_count and sky_block_get_path_ptr never mutate the block
argument, its data file descriptor or any block in the file's block array:
whenever a call returns (with success or failure return code), the block
structure reachable from the call is unchanged, only the caller-supplied
output slots differ. -/
theorem sky_block_queries_frame :
    ∀ (m m2 : Mem) (rc : Int),
      (sky_block_get_offset m = .ret (rc, m2) → m2.block = m.block) ∧
      (sky_block_get_ptr m = .ret (rc, m2) → m2.block = m.block) ∧
      (sky_block_get_span_count m = .ret (rc, m2) → m2.block = m.block) ∧
      (∀ (object_id : Nat) (records : List (Nat × Nat)) (fuel : Nat),
        sky_block_get_path_ptr m object_id records fuel = .ret (rc, m2) →
          m2.block = m.block) :=
  fun m m2 rc =>
    ⟨sky_block_get_offset_frame m rc m2, sky_block_get_ptr_frame m rc m2,
     sky_block_get_span_count_frame m rc m2,
     fun object_id records fuel h =>
       sky_block_get_path_ptr_frame m rc m2 object_id records fuel h⟩

/-- Witness for the frame theorem: a concrete offset query returns and
leaves the block structure untouched. -/
theorem sky_block_queries_frame_witness :
    sky_block_get_offset ⟨some ⟨⟨2, 1, 1, 0, 0, false⟩, some ⟨8, 1, [], some 0⟩⟩,
        some 7, none, none, none⟩ =
      .ret (0, ⟨some ⟨⟨2, 1, 1, 0, 0, false⟩, some ⟨8, 1, [], some 0⟩⟩,
        some 16, none, none, none⟩) ∧
    (⟨some ⟨⟨2, 1, 1, 0, 0, false⟩, some ⟨8, 1, [], some 0⟩⟩,
        some 16, none, none, none⟩ : Mem).block =
      (⟨some ⟨⟨2, 1, 1, 0, 0, false⟩, some ⟨8, 1, [], some 0⟩⟩,
        some 7, none, none, none⟩ : Mem).block := by
  have heq : sky_block_get_offset ⟨some ⟨⟨2, 1, 1, 0, 0, false⟩, some ⟨8, 1, [], some 0⟩⟩,
      some 7, none, none, none⟩ =
      .ret (0, ⟨some ⟨⟨2, 1, 1, 0, 0, false⟩, some ⟨8, 1, [], some 0⟩⟩,
        some 16, none, none, none⟩) := by decide
  exact ⟨heq, (sky_block_queries_frame _ _ 0).1 heq⟩

/-- C5: behaviour of the failure paths towards count and size outputs.
When the output slot is present, the error paths of sky_block_unpack,
sky_block_get_offset and sky_block_get_span_count do store 0 into it; but
when the output slot itself is the absent argument, the same error paths
(and, for sky_block_get_offset, also the success path) dereference the
null output pointer instead of failing safely, because the *sz = 0,
*offset = ... and *count = 0 stores are unguarded in the source. -/
theorem sky_block_error_output_behaviour :
    (sky_block_unpack none (some [1, 2, 3]) none).crashed = true ∧
    (sky_block_unpack none (some [1, 2, 3]) (some 77)).sz = some 0 ∧
    (sky_block_unpack (some defaultBlock) none (some 77)).sz = some 0 ∧
    sky_block_get_offset ⟨none, none, none, none, none⟩ = .crash ∧
    sky_block_get_offset ⟨some ⟨defaultBlock, some ⟨8, 1, [], some 0⟩⟩,
      none, none, none, none⟩ = .crash ∧
    sky_block_get_span_count ⟨some ⟨defaultBlock, some ⟨8, 1, [], some 0⟩⟩,
      none, none, none, none⟩ = .crash ∧
    sky_block_get_offset ⟨none, some 123, none, none, none⟩
      = .ret (-1, ⟨none, some 0, none, none, none⟩) ∧
    sky_block_get_span_count ⟨none, none, none, some 123, none⟩
      = .ret (-1, ⟨none, none, none, some 0, none⟩) := by
  exact ⟨by decide, by decide, by decide, by decide, by decide, by decide, by decide, by decide⟩

/-- C1: refuted on the code.  The scan loop of sky_block_get_path_ptr
contains no call that advances the iterator, so on a block whose first
path record has an object id different from the target the call never
terminates, however much fuel is provided; the loop only exits when the
iterator is at end-of-block on entry (second conjunct: the empty block
terminates at once and reports absent) or when the very first record
already matches. -/
theorem sky_block_get_path_ptr_stuck :
    (∀ fuel : Nat,
      sky_block_get_path_ptr ⟨some ⟨⟨0, 5, 5, 0, 10, false⟩,
          some ⟨128, 1, [⟨0, 5, 5, 0, 10, false⟩], some 0⟩⟩, none, none, none, some (some 555)⟩
        7 [(5, 100)] fuel = .diverge) ∧
    (∀ fuel : Nat,
      sky_block_get_path_ptr ⟨some ⟨⟨0, 5, 5, 0, 10, false⟩,
          some ⟨128, 1, [⟨0, 5, 5, 0, 10, false⟩], some 0⟩⟩, none, none, none, some (some 555)⟩
        7 [] (fuel + 1) =
      .ret (0, ⟨some ⟨⟨0, 5, 5, 0, 10, false⟩,
          some ⟨128, 1, [⟨0, 5, 5, 0, 10, false⟩], some 0⟩⟩, none, none, none, some none⟩)) := by
  constructor
  · intro fuel
    have hdiv := pathLoop_no_advance [(5, 100)] 0 7 (by norm_num) (by norm_num) fuel
    simp only [sky_block_get_path_ptr, hdiv]
    rfl
  · intro fuel
    rfl

/-- Embedding of struct sky_event as consumed by block.c, which reads only
the object id; the encoded byte size of the event is modelled from the
specification (section 6, the external event encoder interface) so that
capacity scenarios can be stated. -/
structure sky_event where
  object_id : Nat
  encoded_size : Nat
deriving DecidableEq

/-- Embedding of sky_block_split_with_event (block.c lines 251-285): checks
block and event (the error path returns -1 leaving the ret out-parameter
with whatever it held, ret0), stores NULL through ret, binds a path
iterator to the block (records, modelled from the specification) and runs
the same non-advancing scan loop as sky_block_get_path_ptr; a match only
stores the pointer into a local variable, so the function returns 0 with
ret still NULL, allocates no block and moves no path. -/
def sky_block_split_with_event (block : Option sky_block_ref) (event : Option sky_event)
    (records : List (Nat × Nat)) (ret0 : Option Nat) (fuel : Nat) :
    RunOutcome (Int × Option Nat) :=
  match block, event with
  | some _, some ev =>
    match pathLoop records 0 ev.object_id fuel with
    | .crash => .crash
    | .diverge => .diverge
    | .ret _ => .ret (0, none)
  | _, _ => .ret (-1, ret0)

/-- Embedding of sky_block_add_event (block.c lines 350-365): the function
checks block and event and then returns 0; the insertion, capacity check
and split are absent from the source (marked as pending work), so no
memory is touched and no failure other than the null checks is possible. -/
def sky_block_add_event (block : Option sky_block_ref) (event : Option sky_event) : Int :=
  match block, event with
  | some _, some _ => 0
  | _, _ => -1

/-- C6: refuted on the code.  For a block whose data file has block_size
64 and an event of encoded size 128 (larger than the whole block), the
sky_block_add_event of the source returns 0 (success) while inserting
nothing: it never reports a capacity failure, for oversized events or any
other valid input, because its body only performs the two null checks. -/
theorem sky_block_add_event_no_capacity_error :
    (∀ (br : sky_block_ref) (ev : sky_event), sky_block_add_event (some br) (some ev) = 0) ∧
    sky_block_add_event
      (some ⟨⟨0, 1, 1, 0, 0, false⟩, some ⟨64, 1, [⟨0, 1, 1, 0, 0, false⟩], some 0⟩⟩)
      (some ⟨1, 128⟩) = 0 ∧
    (64 : Nat) < (⟨1, 128⟩ : sky_event).encoded_size ∧
    sky_block_add_event none (some ⟨1, 128⟩) = -1 ∧
    sky_block_add_event (some ⟨⟨0, 1, 1, 0, 0, false⟩, none⟩) none = -1 := by
  exact ⟨fun br ev => rfl, rfl, by norm_num, rfl, rfl⟩

/-- C7: refuted on the code.  sky_block_split_with_event performs no
split: on a full block whose single path record already matches the event
object id it returns 0 with the ret out-parameter still NULL, having
allocated no second block and moved no record (first conjunct); and when
the first record does not match the event object id the non-advancing
scan loop never terminates, whatever the fuel (second conjunct). -/
theorem sky_block_split_with_event_no_split :
    (∀ fuel : Nat,
      sky_block_split_with_event
        (some ⟨⟨0, 5, 7, 0, 50, false⟩, some ⟨32, 1, [⟨0, 5, 7, 0, 50, false⟩], some 0⟩⟩)
        (some ⟨7, 100⟩) [(7, 40)] (some 999) (fuel + 1) = .ret (0, none)) ∧
    (∀ fuel : Nat,
      sky_block_split_with_event
        (some ⟨⟨0, 5, 7, 0, 50, false⟩, some ⟨32, 1, [⟨0, 5, 7, 0, 50, false⟩], some 0⟩⟩)
        (some ⟨7, 100⟩) [(5, 40)] (some 999) fuel = .diverge) := by
  constructor
  · intro fuel
    rfl
  · intro fuel
    have hdiv := pathLoop_no_advance [(5, 40)] 0 7 (by norm_num) (by norm_num) fuel
    simp only [sky_block_split_with_event, hdiv]

end SkyModel
